import Mathlib

/-!
Verification of the consent-gated Sentry/Zaraz integration
(repository `sentry-zaraz-consent-integration`).

The development shallowly embeds the core of `src/index.ts`:

* the purpose resolver `checkZarazConsent` / `getZarazConsentState`,
* the integration class `SentryZarazConsentIntegrationClass`
  (`processEvent`, `initializeConsentMonitoring`, `checkConsent`,
  `listenForConsentChanges`, `processQueuedEvents`,
  `buildConsentBasedConfig`, `applySentryConfiguration`,
  `clearWarningAndErrorTimeouts`, `clearEventQueue`),

as executable Lean functions over an explicit integration state, plus an
event-driven step function modelling the single-threaded cooperative
delivery of DOM events and timer expiries described by the design.
-/

/-- One entry of the purpose-mapping configuration: a purpose may be mapped
to an array of Zaraz purpose ids (all of which must be granted), to a fixed
boolean (always granted / always denied), or be absent (undefined). -/
inductive PurposeMappingEntry where
  | ids (idents : List String)
  | fixed (b : Bool)
  | absent
  deriving DecidableEq, Repr

/-- The `window.zaraz.consent` object: a readiness flag and a per-purpose
lookup `get` returning `boolean | undefined` (modelled as `Option Bool`). -/
structure ZarazConsentApi where
  APIReady : Bool
  get : String → Option Bool

/-- The purpose-mapping configuration: one entry per recognized purpose
(functional, analytics, marketing, preferences). -/
structure PurposeMapping where
  functional : PurposeMappingEntry
  analytics : PurposeMappingEntry
  marketing : PurposeMappingEntry
  preferences : PurposeMappingEntry
  deriving DecidableEq, Repr

/-- A resolved consent snapshot: one boolean per recognized purpose
(the return shape of `getZarazConsentState` / `getConsentStatus`). -/
structure ConsentState where
  functional : Bool
  analytics : Bool
  marketing : Bool
  preferences : Bool
  deriving DecidableEq, Repr

/-- Embeds `checkZarazConsent` (src/index.ts, first variant, lines 161-187).
A boolean mapping is returned unconditionally; an undefined mapping yields
false; an array of purpose ids yields false when `window.zaraz?.consent` is
unavailable (`zaraz = none`) and otherwise requires every id to report
`=== true` from the source. -/
def checkZarazConsent (mapping : PurposeMappingEntry)
    (zaraz : Option ZarazConsentApi) : Bool :=
  match mapping with
  | .fixed b => b
  | .absent => false
  | .ids idents =>
    match zaraz with
    | none => false
    | some api => idents.all fun purposeId => api.get purposeId == some true

/-- Embeds `getZarazConsentState` (src/index.ts, first variant, lines
209-218): resolves all four purposes with `checkZarazConsent`. -/
def getZarazConsentState (pm : PurposeMapping)
    (zaraz : Option ZarazConsentApi) : ConsentState :=
  { functional := checkZarazConsent pm.functional zaraz
    analytics := checkZarazConsent pm.analytics zaraz
    marketing := checkZarazConsent pm.marketing zaraz
    preferences := checkZarazConsent pm.preferences zaraz }

/-- Modelled from the spec: `getConsentStatus` (imported by the integration
class from `./zaraz`, a module that is not among the sources). Per the
Purpose Resolver contract it resolves each purpose of the mapping against
the external source exactly as `checkZarazConsent` does, which is also the
behaviour of `getZarazConsentState` in the sibling source variant. -/
def getConsentStatus (pm : PurposeMapping)
    (zaraz : Option ZarazConsentApi) : ConsentState :=
  getZarazConsentState pm zaraz

/-- C3: for every purpose-mapping entry, consent resolution returns the
fixed boolean itself when the entry is a boolean (independent of the
source), false when the entry is absent, and for an identifier set: false
when the source is unavailable, otherwise true iff every identifier in the
set individually reports granted. -/
theorem checkZarazConsent_resolution (m : PurposeMappingEntry)
    (z : Option ZarazConsentApi) :
    (∀ b : Bool, m = .fixed b → checkZarazConsent m z = b) ∧
    (m = .absent → checkZarazConsent m z = false) ∧
    (∀ idents : List String, m = .ids idents →
      (z = none → checkZarazConsent m z = false) ∧
      ∀ api : ZarazConsentApi, z = some api →
        (checkZarazConsent m z = true ↔
          ∀ pid ∈ idents, api.get pid = some true)) := by
  refine ⟨?_, ?_, ?_⟩
  · intro b hb; subst hb; rfl
  · intro hm; subst hm; rfl
  · intro idents hm; subst hm
    refine ⟨?_, ?_⟩
    · intro hz; subst hz; rfl
    · intro api hz; subst hz
      simp [checkZarazConsent, List.all_eq_true]

/-- Concrete consent source granting exactly the purpose id "a". -/
def apiGrantsA : ZarazConsentApi :=
  { APIReady := true
    get := fun pid => if pid = "a" then some true else some false }

/-- Witness for C3: evaluates the resolution theorem on concrete mapping
entries and sources, discharging each hypothesis. -/
theorem checkZarazConsent_resolution_witness :
    checkZarazConsent (.fixed true) none = true ∧
    checkZarazConsent .absent none = false ∧
    checkZarazConsent (.ids ["a"]) none = false ∧
    (checkZarazConsent (.ids ["a", "b"]) (some apiGrantsA) = true ↔
      ∀ pid ∈ ["a", "b"], apiGrantsA.get pid = some true) :=
  ⟨(checkZarazConsent_resolution (.fixed true) none).1 true rfl,
   (checkZarazConsent_resolution .absent none).2.1 rfl,
   ((checkZarazConsent_resolution (.ids ["a"]) none).2.2 ["a"] rfl).1 rfl,
   ((checkZarazConsent_resolution (.ids ["a", "b"])
      (some apiGrantsA)).2.2 ["a", "b"] rfl).2 apiGrantsA rfl⟩

/-- C10: a purpose mapped to an empty identifier array resolves to true
whenever the consent API object is available (vacuous universal grant
check), and to false when it is unavailable — unlike an absent mapping,
which resolves to false even when the source exists. -/
theorem emptyIds_grantedWhenAvailable (api : ZarazConsentApi) :
    checkZarazConsent (.ids []) (some api) = true ∧
    checkZarazConsent (.ids []) none = false ∧
    checkZarazConsent .absent (some api) = false ∧
    (getZarazConsentState
      { functional := .ids [], analytics := .absent,
        marketing := .absent, preferences := .absent }
      (some api)).functional = true := by
  refine ⟨rfl, rfl, rfl, rfl⟩

/-- One frame of a captured exception stack trace. -/
structure StackFrame where
  filename : Option String
  lineno : Option Nat
  deriving DecidableEq, Repr

/-- One entry of `event.exception.values`. -/
structure ExceptionValue where
  value : Option String
  frames : Option (List StackFrame)
  deriving DecidableEq, Repr

/-- An opaque captured Sentry event, with exactly the fields the
integration inspects (`event.exception?.values`, `event.message`,
`event.level`, `event.event_id`, `event.type`). A missing `exception`
or `values` member is modelled by the empty list. -/
structure SentryEvent where
  eventId : Option String
  eventType : Option String
  level : Option String
  message : Option String
  exceptionValues : List ExceptionValue
  deriving DecidableEq, Repr

/-- The opaque hint passed along with a captured event. -/
structure EventHint where
  hintId : Nat
  deriving DecidableEq, Repr

/-- A `beforeSend`-style hook value held by a configuration patch: either
the constant suppressor installed by the integration (the arrow function
returning null) or a restored original hook reference, which may itself
be undefined (`orig none`). -/
inductive HookValue where
  | blockAll
  | orig (h : Option Nat)
  deriving DecidableEq, Repr

/-- Semantics of a hook value as a send filter, parametric in the meaning
`origSem` of the original (externally supplied) hooks: the suppressor drops
every event, an original hook behaves as the host configured it. -/
def HookValue.run (origSem : Option Nat → SentryEvent → Option SentryEvent) :
    HookValue → SentryEvent → Option SentryEvent
  | .blockAll, _ => none
  | .orig h, e => origSem h e

/-- The baseline configuration captured once at setup by
`captureOriginalSentryConfig` (src/index.ts, lines 596-631); every field
may be undefined. Hook references are opaque identifiers. -/
structure OriginalSentryConfig where
  sendDefaultPii : Option Bool
  maxBreadcrumbs : Option Nat
  attachStacktrace : Option Bool
  sampleRate : Option Rat
  tracesSampleRate : Option Rat
  beforeBreadcrumb : Option Nat
  beforeSend : Option Nat
  beforeSendTransaction : Option Nat
  replaysSessionSampleRate : Option Rat
  replaysOnErrorSampleRate : Option Rat
  profilesSampleRate : Option Rat
  deriving DecidableEq, Repr

/-- A configuration patch, as built by `buildConsentBasedConfig`: `none`
in a field means the field was never assigned on the `config` object
(a partial patch); `some v` means the field was assigned value `v`
(assigning a JS `undefined` hook is `some (.orig none)`). -/
structure ConfigPatch where
  enabled : Option Bool
  sampleRate : Option Rat
  beforeSend : Option HookValue
  maxBreadcrumbs : Option Nat
  attachStacktrace : Option Bool
  tracesSampleRate : Option Rat
  profilesSampleRate : Option Rat
  beforeBreadcrumb : Option HookValue
  beforeSendTransaction : Option HookValue
  sendDefaultPii : Option Bool
  replaysSessionSampleRate : Option Rat
  replaysOnErrorSampleRate : Option Rat
  deriving DecidableEq, Repr

/-- The freshly created empty object `const config: any = \x7b\x7d`. -/
def emptyPatch : ConfigPatch :=
  { enabled := none, sampleRate := none, beforeSend := none,
    maxBreadcrumbs := none, attachStacktrace := none,
    tracesSampleRate := none, profilesSampleRate := none,
    beforeBreadcrumb := none, beforeSendTransaction := none,
    sendDefaultPii := none, replaysSessionSampleRate := none,
    replaysOnErrorSampleRate := none }

/-- Embeds `buildConsentBasedConfig` (src/index.ts, lines 658-707): starts
from an empty patch and assigns the functional-, analytics- and
preferences-gated field groups in order, each group from one if/else. -/
def buildConsentBasedConfig (origCfg : OriginalSentryConfig)
    (consentState : ConsentState) : ConfigPatch :=
  let config := emptyPatch
  let config :=
    if !consentState.functional then
      { config with
        enabled := some false, sampleRate := some 0,
        beforeSend := some .blockAll }
    else
      { config with
        enabled := some true,
        sampleRate := some (origCfg.sampleRate.getD 1),
        beforeSend := some (.orig origCfg.beforeSend) }
  let config :=
    if !consentState.analytics then
      { config with
        maxBreadcrumbs := some 0, attachStacktrace := some false,
        tracesSampleRate := some 0, profilesSampleRate := some 0,
        beforeBreadcrumb := some .blockAll,
        beforeSendTransaction := some .blockAll }
    else
      { config with
        maxBreadcrumbs := some (origCfg.maxBreadcrumbs.getD 100),
        attachStacktrace := some (origCfg.attachStacktrace.getD false),
        tracesSampleRate := some (origCfg.tracesSampleRate.getD 0),
        profilesSampleRate := some (origCfg.profilesSampleRate.getD 0),
        beforeBreadcrumb := some (.orig origCfg.beforeBreadcrumb),
        beforeSendTransaction := some (.orig origCfg.beforeSendTransaction) }
  let config :=
    if !consentState.preferences then
      { config with
        sendDefaultPii := some false,
        replaysSessionSampleRate := some 0,
        replaysOnErrorSampleRate := some 0 }
    else
      { config with
        sendDefaultPii := some (origCfg.sendDefaultPii.getD false),
        replaysSessionSampleRate :=
          some (origCfg.replaysSessionSampleRate.getD 0),
        replaysOnErrorSampleRate :=
          some (origCfg.replaysOnErrorSampleRate.getD 0) }
  config

/-- Decides whether a configuration patch assigns every gated field. -/
def patchComplete (p : ConfigPatch) : Bool :=
  p.enabled.isSome && p.sampleRate.isSome && p.beforeSend.isSome &&
  p.maxBreadcrumbs.isSome && p.attachStacktrace.isSome &&
  p.tracesSampleRate.isSome && p.profilesSampleRate.isSome &&
  p.beforeBreadcrumb.isSome && p.beforeSendTransaction.isSome &&
  p.sendDefaultPii.isSome && p.replaysSessionSampleRate.isSome &&
  p.replaysOnErrorSampleRate.isSome

/-- C5: the configuration patch derived from a snapshot with
functional=false disables the client, zeroes the capture sampling rate and
installs a send filter suppressing every outbound event; with
functional=true it restores enabled capture, the baseline sampling rate
(default 1.0 when never captured) and the baseline send-filter hook. -/
theorem buildConsentBasedConfig_functional (origCfg : OriginalSentryConfig)
    (cs : ConsentState) :
    (cs.functional = false →
      (buildConsentBasedConfig origCfg cs).enabled = some false ∧
      (buildConsentBasedConfig origCfg cs).sampleRate = some 0 ∧
      (buildConsentBasedConfig origCfg cs).beforeSend = some .blockAll ∧
      ∀ (origSem : Option Nat → SentryEvent → Option SentryEvent)
        (e : SentryEvent), HookValue.run origSem .blockAll e = none) ∧
    (cs.functional = true →
      (buildConsentBasedConfig origCfg cs).enabled = some true ∧
      (buildConsentBasedConfig origCfg cs).sampleRate =
        some (origCfg.sampleRate.getD 1) ∧
      (buildConsentBasedConfig origCfg cs).beforeSend =
        some (.orig origCfg.beforeSend)) := by
  constructor
  · intro hf
    refine ⟨?_, ?_, ?_, fun origSem e => rfl⟩ <;>
      cases ha : cs.analytics <;> cases hp : cs.preferences <;>
        simp [buildConsentBasedConfig, hf, ha, hp]
  · intro hf
    refine ⟨?_, ?_, ?_⟩ <;>
      cases ha : cs.analytics <;> cases hp : cs.preferences <;>
        simp [buildConsentBasedConfig, hf, ha, hp]

/-- Concrete baseline configuration used by witnesses. -/
def origCfgSample : OriginalSentryConfig :=
  { sendDefaultPii := some true, maxBreadcrumbs := some 50,
    attachStacktrace := some true, sampleRate := some 1,
    tracesSampleRate := some 1, beforeBreadcrumb := some 7,
    beforeSend := some 3, beforeSendTransaction := none,
    replaysSessionSampleRate := some 1, replaysOnErrorSampleRate := none,
    profilesSampleRate := none }

/-- Snapshot with every purpose denied. -/
def csAllDenied : ConsentState :=
  { functional := false, analytics := false,
    marketing := false, preferences := false }

/-- Snapshot with every purpose granted. -/
def csAllGranted : ConsentState :=
  { functional := true, analytics := true,
    marketing := true, preferences := true }

/-- Witness for C5: evaluates the functional-gating theorem on a concrete
baseline and on concrete denied and granted snapshots. -/
theorem buildConsentBasedConfig_functional_witness :
    ((buildConsentBasedConfig origCfgSample csAllDenied).enabled =
        some false ∧
      (buildConsentBasedConfig origCfgSample csAllDenied).sampleRate =
        some 0 ∧
      (buildConsentBasedConfig origCfgSample csAllDenied).beforeSend =
        some .blockAll ∧
      ∀ (origSem : Option Nat → SentryEvent → Option SentryEvent)
        (e : SentryEvent), HookValue.run origSem .blockAll e = none) ∧
    ((buildConsentBasedConfig origCfgSample csAllGranted).enabled =
        some true ∧
      (buildConsentBasedConfig origCfgSample csAllGranted).sampleRate =
        some (origCfgSample.sampleRate.getD 1) ∧
      (buildConsentBasedConfig origCfgSample csAllGranted).beforeSend =
        some (.orig origCfgSample.beforeSend)) :=
  ⟨(buildConsentBasedConfig_functional origCfgSample csAllDenied).1 rfl,
   (buildConsentBasedConfig_functional origCfgSample csAllGranted).2 rfl⟩

/-- C6: every configuration patch produced from a consent snapshot assigns
a value to every gated field — a full replacement, never a partial patch
leaving a stale gated value from a prior consent state. -/
theorem buildConsentBasedConfig_complete (origCfg : OriginalSentryConfig)
    (cs : ConsentState) :
    patchComplete (buildConsentBasedConfig origCfg cs) = true := by
  cases hf : cs.functional <;> cases ha : cs.analytics <;>
    cases hp : cs.preferences <;>
      simp [buildConsentBasedConfig, patchComplete, emptyPatch, hf, ha, hp]

/-- JS string coercion `v || fallback`: undefined and the empty string both
fall back. -/
def jsOrString (v : Option String) (fallback : String) : String :=
  match v with
  | some s => if s = "" then fallback else s
  | none => fallback

/-- Renders one stack frame as the re-raised error does:
`(f.filename || 'unknown') : (f.lineno || 0)`. -/
def frameLine (f : StackFrame) : String :=
  jsOrString f.filename "unknown" ++ ":" ++ toString (f.lineno.getD 0)

/-- One re-submission through the telemetry client's capture path. -/
inductive CaptureAction where
  | exceptionCapture (message : String) (stack : String)
  | messageCapture (message : String) (level : Option String)
  | eventCapture (event : SentryEvent) (hint : EventHint)
  deriving DecidableEq, Repr

/-- The per-item dispatch of `processQueuedEvents` (src/index.ts, lines
538-565): an event with a first exception value is re-raised via
`Sentry.captureException` (message `value || 'Queued error'`, stack built
from `stacktrace?.frames ?? []`); otherwise a truthy `event.message` is
re-sent via `Sentry.captureMessage`; anything else goes through
`Sentry.captureEvent`. -/
def recaptureAction (item : SentryEvent × EventHint) : CaptureAction :=
  match item.1.exceptionValues.head? with
  | some exVal =>
    .exceptionCapture (jsOrString exVal.value "Queued error")
      (String.intercalate "\n" ((exVal.frames.getD []).map frameLine))
  | none =>
    match item.1.message with
    | some msg =>
      if msg = "" then .eventCapture item.1 item.2
      else .messageCapture msg item.1.level
    | none => .eventCapture item.1 item.2

/-- The mutable instance state of `SentryZarazConsentIntegrationClass`.
Timer handles are modelled by armed flags (an armed timer may still fire,
a cleared or already-fired one may not); `warnFireCount` and
`errorFireCount` count executions of the respective timer bodies (their
diagnostic side effects); `changeListenerCount` counts listeners
registered for `zarazConsentChoicesUpdated`; `lastAppliedConfig` and
`applyConfigCount` record the reconciliations applied to the client. -/
structure IntegrationState where
  isConsentReady : Bool
  hasConsent : Bool
  eventQueue : List (SentryEvent × EventHint)
  currentConsentState : Option ConsentState
  changeListenerCount : Nat
  readyListenerRegistered : Bool
  warningTimeoutArmed : Bool
  errorTimeoutArmed : Bool
  lastAppliedConfig : Option ConfigPatch
  applyConfigCount : Nat
  warnFireCount : Nat
  errorFireCount : Nat
  deriving DecidableEq, Repr

/-- The field-initialized state of a freshly constructed integration
instance (src/index.ts, lines 301-310). -/
def initialState : IntegrationState :=
  { isConsentReady := false, hasConsent := false, eventQueue := [],
    currentConsentState := none, changeListenerCount := 0,
    readyListenerRegistered := false, warningTimeoutArmed := false,
    errorTimeoutArmed := false, lastAppliedConfig := none,
    applyConfigCount := 0, warnFireCount := 0, errorFireCount := 0 }

/-- The three gating states of the admission state machine. -/
inductive GatingState where
  | notReady
  | readyGranted
  | readyDenied
  deriving DecidableEq, Repr

/-- The gating state encoded by the `isConsentReady` / `hasConsent`
flag pair. -/
def gatingStateOf (s : IntegrationState) : GatingState :=
  if s.isConsentReady then
    if s.hasConsent then .readyGranted else .readyDenied
  else .notReady

/-- Embeds `processEvent` (src/index.ts, lines 331-369): ready and granted
returns the event; ready and denied returns null; not ready appends the
event to the queue and returns null. -/
def processEvent (s : IntegrationState) (event : SentryEvent)
    (hint : EventHint) : IntegrationState × Option SentryEvent :=
  if s.isConsentReady && s.hasConsent then (s, some event)
  else if s.isConsentReady && !s.hasConsent then (s, none)
  else ({ s with eventQueue := s.eventQueue ++ [(event, hint)] }, none)

/-- Embeds `applySentryConfiguration` (src/index.ts, lines 633-656) in the
setting where the client exists: builds the consent-based patch and merges
it into the client options (recorded as the last applied patch, with a
side-effect counter for reconciliations). -/
def applySentryConfiguration (origCfg : OriginalSentryConfig)
    (consentState : ConsentState) (s : IntegrationState) : IntegrationState :=
  { s with
    lastAppliedConfig := some (buildConsentBasedConfig origCfg consentState),
    applyConfigCount := s.applyConfigCount + 1 }

/-- Embeds `clearEventQueue` (src/index.ts, lines 575-578). -/
def clearEventQueue (s : IntegrationState) : IntegrationState :=
  { s with eventQueue := [] }

/-- Embeds `clearWarningAndErrorTimeouts` (src/index.ts, lines 514-523). -/
def clearWarningAndErrorTimeouts (s : IntegrationState) : IntegrationState :=
  { s with warningTimeoutArmed := false, errorTimeoutArmed := false }

/-- Embeds the registration side of `listenForConsentChanges`
(src/index.ts, lines 469-512): adds one more listener for
`zarazConsentChoicesUpdated`. -/
def listenForConsentChanges (s : IntegrationState) : IntegrationState :=
  { s with changeListenerCount := s.changeListenerCount + 1 }

/-- Embeds `processQueuedEvents` (src/index.ts, lines 531-573): takes a
stable copy of the queue, clears the live queue, then re-submits each
copied item whenever `hasConsent` holds (the flag is unchanged during the
loop in the single-threaded model) and discards it otherwise. -/
def processQueuedEvents (s : IntegrationState) :
    IntegrationState × List CaptureAction :=
  let queuedEvents := s.eventQueue
  let s1 := { s with eventQueue := [] }
  (s1, queuedEvents.filterMap fun item =>
    if s1.hasConsent then some (recaptureAction item) else none)

/-- Embeds `checkConsent` (src/index.ts, lines 431-467): resolves the
snapshot, caches it, marks readiness, sets `hasConsent` from the
functional purpose, applies the derived configuration, flushes the queue
on grant or clears it on denial, registers the change listener, and
cancels both pending timeouts. -/
def checkConsent (pm : PurposeMapping) (origCfg : OriginalSentryConfig)
    (z : Option ZarazConsentApi) (s : IntegrationState) :
    IntegrationState × List CaptureAction :=
  let cs := getConsentStatus pm z
  let hasConsent := cs.functional
  let s1 := { s with
    currentConsentState := some cs, isConsentReady := true,
    hasConsent := hasConsent }
  let s2 := applySentryConfiguration origCfg cs s1
  let r := if hasConsent then processQueuedEvents s2 else (clearEventQueue s2, [])
  let s3 := listenForConsentChanges r.1
  (clearWarningAndErrorTimeouts s3, r.2)

/-- Embeds the `zarazConsentChoicesUpdated` listener body installed by
`listenForConsentChanges` (src/index.ts, lines 471-504): recompute the
snapshot; when either the functional bit differs from `hasConsent` or the
snapshot differs from the cached one, update both, re-apply the
configuration and, on grant, flush the queue; otherwise do nothing. -/
def consentChangeHandler (pm : PurposeMapping)
    (origCfg : OriginalSentryConfig) (z : Option ZarazConsentApi)
    (s : IntegrationState) : IntegrationState × List CaptureAction :=
  let newConsentState := getConsentStatus pm z
  let currentConsent := newConsentState.functional
  if currentConsent ≠ s.hasConsent ∨
      some newConsentState ≠ s.currentConsentState then
    let s1 := { s with
      hasConsent := currentConsent,
      currentConsentState := some newConsentState }
    let s2 := applySentryConfiguration origCfg newConsentState s1
    if currentConsent then processQueuedEvents s2 else (s2, [])
  else (s, [])

/-- Runs the change-listener body once per registered listener, in
registration order, as the DOM dispatches one `zarazConsentChoicesUpdated`
event to every registered copy of the handler. -/
def iterateChangeHandler (pm : PurposeMapping)
    (origCfg : OriginalSentryConfig) (z : Option ZarazConsentApi) :
    Nat → IntegrationState → IntegrationState × List CaptureAction
  | 0, s => (s, [])
  | n + 1, s =>
    let r1 := consentChangeHandler pm origCfg z s
    let r2 := iterateChangeHandler pm origCfg z n r1.1
    (r2.1, r1.2 ++ r2.2)

/-- The availability-and-readiness test `window?.zaraz?.consent?.APIReady`. -/
def zarazApiReady : Option ZarazConsentApi → Bool
  | some api => api.APIReady
  | none => false

/-- Embeds the `zarazConsentAPIReady` handler `handleZarazLoaded`
(src/index.ts, lines 384-399): when the consent API reports ready, run
`checkConsent`, remove the one-shot readiness listener and cancel the
pending timeouts; when it does not, do nothing. -/
def handleZarazLoaded (pm : PurposeMapping)
    (origCfg : OriginalSentryConfig) (z : Option ZarazConsentApi)
    (s : IntegrationState) : IntegrationState × List CaptureAction :=
  if zarazApiReady z then
    let r := checkConsent pm origCfg z s
    let s1 := { r.1 with readyListenerRegistered := false }
    (clearWarningAndErrorTimeouts s1, r.2)
  else (s, [])

/-- Embeds `initializeConsentMonitoring` (src/index.ts, lines 371-429):
with the consent API already ready, resolve synchronously; otherwise
register the one-shot readiness listener and arm the 20-second warning and
45-second fallback timers. -/
def initConsentMonitoring (pm : PurposeMapping)
    (origCfg : OriginalSentryConfig) (z : Option ZarazConsentApi)
    (s : IntegrationState) : IntegrationState × List CaptureAction :=
  if zarazApiReady z then checkConsent pm origCfg z s
  else
    ({ s with
       readyListenerRegistered := true, warningTimeoutArmed := true,
       errorTimeoutArmed := true }, [])

/-- The discrete external triggers delivered to the integration after
setup: an event capture, the two named consent-source notifications, and
the two timer expiries. -/
inductive SysEvent where
  | capture (event : SentryEvent) (hint : EventHint)
  | zarazReady
  | consentChanged
  | warnFire
  | fallbackFire
  deriving DecidableEq, Repr

/-- One cooperative delivery step: dispatches a trigger against the
current integration state, under the consent-source state `z` at delivery
time. A timer expiry only executes its body while the timer is armed
(`clearTimeout` and one-shot firing both disarm); the readiness
notification only reaches the handler while that listener is registered;
the choices-updated notification reaches every registered copy of the
change listener. The warning body (src/index.ts, lines 404-412) only
emits diagnostics; the fallback body (lines 415-427) forces readiness
without consent and clears the queue. -/
def step (pm : PurposeMapping) (origCfg : OriginalSentryConfig)
    (s : IntegrationState) (z : Option ZarazConsentApi) :
    SysEvent → IntegrationState × List CaptureAction
  | .capture event hint => ((processEvent s event hint).1, [])
  | .zarazReady =>
    if s.readyListenerRegistered then handleZarazLoaded pm origCfg z s
    else (s, [])
  | .consentChanged => iterateChangeHandler pm origCfg z s.changeListenerCount s
  | .warnFire =>
    if s.warningTimeoutArmed then
      ({ s with
         warningTimeoutArmed := false,
         warnFireCount := s.warnFireCount + 1 }, [])
    else (s, [])
  | .fallbackFire =>
    if s.errorTimeoutArmed then
      ({ s with
         errorTimeoutArmed := false,
         errorFireCount := s.errorFireCount + 1, isConsentReady := true,
         hasConsent := false, eventQueue := [] }, [])
    else (s, [])

/-- Runs a sequence of deliveries, each under the consent-source state
current at its delivery time, collecting all re-submissions. -/
def run (pm : PurposeMapping) (origCfg : OriginalSentryConfig)
    (s : IntegrationState) :
    List (Option ZarazConsentApi × SysEvent) →
      IntegrationState × List CaptureAction
  | [] => (s, [])
  | (z, ev) :: rest =>
    let r1 := step pm origCfg s z ev
    let r2 := run pm origCfg r1.1 rest
    (r2.1, r1.2 ++ r2.2)

/-- Mapping with an always-true option produces the original list. -/
theorem filterMap_some_eq_map {α β : Type} (f : α → β) (l : List α) :
    l.filterMap (fun a => some (f a)) = l.map f := by
  induction l with
  | nil => rfl
  | cons a t ih => simp [List.filterMap_cons, ih]

/-- C1: the admission decision is a pure function of the gating state:
while NOT_READY the event is appended to the queue in arrival order and
the hook returns null; once ready, the hook returns the input event
unchanged under READY_GRANTED and null under READY_DENIED, and in neither
ready state is the queue (or any other state) touched. -/
theorem processEvent_admission (s : IntegrationState) (e : SentryEvent)
    (h : EventHint) :
    (gatingStateOf s = .notReady →
      processEvent s e h =
        ({ s with eventQueue := s.eventQueue ++ [(e, h)] }, none)) ∧
    (gatingStateOf s = .readyGranted → processEvent s e h = (s, some e)) ∧
    (gatingStateOf s = .readyDenied → processEvent s e h = (s, none)) := by
  cases hr : s.isConsentReady <;> cases hc : s.hasConsent <;>
    simp [gatingStateOf, processEvent, hr, hc]

/-- Concrete captured event used by witnesses. -/
def sampleEvent : SentryEvent :=
  { eventId := some "e1", eventType := none, level := some "error",
    message := some "boom", exceptionValues := [] }

/-- Concrete capture hint used by witnesses. -/
def sampleHint : EventHint := { hintId := 0 }

/-- Witness for C1: before readiness the freshly constructed instance
queues the captured event and returns null. -/
theorem processEvent_admission_witness :
    processEvent initialState sampleEvent sampleHint =
      ({ initialState with
         eventQueue := initialState.eventQueue ++ [(sampleEvent, sampleHint)] },
        none) :=
  (processEvent_admission initialState sampleEvent sampleHint).1 rfl

/-- C2: consent resolution leaves the queue empty, and re-submits every
queued event in original arrival order exactly when the functional purpose
resolves true; when it resolves false the queued events are discarded with
no re-submission. -/
theorem checkConsent_flush_or_discard (pm : PurposeMapping)
    (origCfg : OriginalSentryConfig) (z : Option ZarazConsentApi)
    (s : IntegrationState) :
    (checkConsent pm origCfg z s).1.eventQueue = [] ∧
    (checkConsent pm origCfg z s).2 =
      (if (getConsentStatus pm z).functional then
        s.eventQueue.map recaptureAction
      else []) := by
  cases hf : (getConsentStatus pm z).functional <;>
    simp [checkConsent, hf, applySentryConfiguration, processQueuedEvents,
      clearEventQueue, listenForConsentChanges, clearWarningAndErrorTimeouts,
      filterMap_some_eq_map]

/-- Mapping requiring no external grant for functional consent, denying
the other purposes. -/
def pmFixedFunctional : PurposeMapping :=
  { functional := .fixed true, analytics := .fixed false,
    marketing := .fixed false, preferences := .fixed false }

/-- The snapshot `pmFixedFunctional` resolves to. -/
def csFunctionalOnly : ConsentState :=
  { functional := true, analytics := false, marketing := false,
    preferences := false }

/-- A state as produced by a first resolution that granted functional
consent under `pmFixedFunctional`. -/
def resolvedState : IntegrationState :=
  { initialState with
    isConsentReady := true, hasConsent := true,
    currentConsentState := some csFunctionalOnly }

/-- C7: a change notification whose recomputed snapshot is structurally
equal to the cached snapshot (with the gating flag consistent with that
snapshot, as every resolution leaves it) performs no reconciliation and no
state change at all, and re-submits nothing. -/
theorem consentChangeHandler_noop (pm : PurposeMapping)
    (origCfg : OriginalSentryConfig) (z : Option ZarazConsentApi)
    (s : IntegrationState) (cs : ConsentState)
    (h1 : s.currentConsentState = some cs)
    (h2 : getConsentStatus pm z = cs)
    (h3 : s.hasConsent = cs.functional) :
    consentChangeHandler pm origCfg z s = (s, []) := by
  simp [consentChangeHandler, h1, h2, h3]

/-- Witness for C7: a notification delivered to a resolved state whose
snapshot is unchanged is a no-op. -/
theorem consentChangeHandler_noop_witness :
    consentChangeHandler pmFixedFunctional origCfgSample none resolvedState =
      (resolvedState, []) :=
  consentChangeHandler_noop pmFixedFunctional origCfgSample none
    resolvedState csFunctionalOnly rfl rfl rfl

/-- C8: when the armed fallback timeout fires, readiness is forced with
consent denied (READY_DENIED), the queue is emptied, and nothing is
re-submitted or surfaced. -/
theorem fallback_denies (pm : PurposeMapping)
    (origCfg : OriginalSentryConfig) (s : IntegrationState)
    (z : Option ZarazConsentApi) (h : s.errorTimeoutArmed = true) :
    gatingStateOf (step pm origCfg s z .fallbackFire).1 = .readyDenied ∧
    (step pm origCfg s z .fallbackFire).1.eventQueue = [] ∧
    (step pm origCfg s z .fallbackFire).2 = [] := by
  simp [step, h, gatingStateOf]

/-- The state of an instance whose setup found the consent source not
ready: readiness listener registered, both timers armed. -/
def notReadyWaitingState : IntegrationState :=
  (initConsentMonitoring pmFixedFunctional origCfgSample none initialState).1

/-- Witness for C8: the fallback fires against the waiting state. -/
theorem fallback_denies_witness :
    gatingStateOf (step pmFixedFunctional origCfgSample notReadyWaitingState
        none .fallbackFire).1 = .readyDenied ∧
    (step pmFixedFunctional origCfgSample notReadyWaitingState none
        .fallbackFire).1.eventQueue = [] ∧
    (step pmFixedFunctional origCfgSample notReadyWaitingState none
        .fallbackFire).2 = [] :=
  fallback_denies pmFixedFunctional origCfgSample notReadyWaitingState none rfl

/-- The admission hook touches nothing but the queue. -/
theorem processEvent_flags (s : IntegrationState) (e : SentryEvent)
    (h : EventHint) :
    (processEvent s e h).1.isConsentReady = s.isConsentReady ∧
    (processEvent s e h).1.hasConsent = s.hasConsent ∧
    (processEvent s e h).1.readyListenerRegistered =
      s.readyListenerRegistered ∧
    (processEvent s e h).1.warningTimeoutArmed = s.warningTimeoutArmed ∧
    (processEvent s e h).1.errorTimeoutArmed = s.errorTimeoutArmed ∧
    (processEvent s e h).1.warnFireCount = s.warnFireCount ∧
    (processEvent s e h).1.errorFireCount = s.errorFireCount := by
  cases hr : s.isConsentReady <;> cases hc : s.hasConsent <;>
    simp [processEvent, hr, hc]

/-- Resolution marks readiness, cancels both timers, executes no timer
body, and leaves the readiness listener's registration unchanged. -/
theorem checkConsent_flags (pm : PurposeMapping)
    (origCfg : OriginalSentryConfig) (z : Option ZarazConsentApi)
    (s : IntegrationState) :
    (checkConsent pm origCfg z s).1.isConsentReady = true ∧
    (checkConsent pm origCfg z s).1.warningTimeoutArmed = false ∧
    (checkConsent pm origCfg z s).1.errorTimeoutArmed = false ∧
    (checkConsent pm origCfg z s).1.readyListenerRegistered =
      s.readyListenerRegistered ∧
    (checkConsent pm origCfg z s).1.warnFireCount = s.warnFireCount ∧
    (checkConsent pm origCfg z s).1.errorFireCount = s.errorFireCount := by
  cases hf : (getConsentStatus pm z).functional <;>
    simp [checkConsent, hf, applySentryConfiguration, processQueuedEvents,
      clearEventQueue, listenForConsentChanges, clearWarningAndErrorTimeouts]

/-- The change-listener body never touches readiness, the readiness
listener, the timers, or the timer-body counters. -/
theorem consentChangeHandler_flags (pm : PurposeMapping)
    (origCfg : OriginalSentryConfig) (z : Option ZarazConsentApi)
    (s : IntegrationState) :
    (consentChangeHandler pm origCfg z s).1.isConsentReady =
      s.isConsentReady ∧
    (consentChangeHandler pm origCfg z s).1.readyListenerRegistered =
      s.readyListenerRegistered ∧
    (consentChangeHandler pm origCfg z s).1.warningTimeoutArmed =
      s.warningTimeoutArmed ∧
    (consentChangeHandler pm origCfg z s).1.errorTimeoutArmed =
      s.errorTimeoutArmed ∧
    (consentChangeHandler pm origCfg z s).1.warnFireCount =
      s.warnFireCount ∧
    (consentChangeHandler pm origCfg z s).1.errorFireCount =
      s.errorFireCount := by
  simp only [consentChangeHandler]
  split_ifs with h1 h2 <;>
    simp [applySentryConfiguration, processQueuedEvents]

/-- Delivering one choices-updated notification to every registered copy
of the change listener preserves the same fields. -/
theorem iterateChangeHandler_flags (pm : PurposeMapping)
    (origCfg : OriginalSentryConfig) (z : Option ZarazConsentApi)
    (n : Nat) (s : IntegrationState) :
    (iterateChangeHandler pm origCfg z n s).1.isConsentReady =
      s.isConsentReady ∧
    (iterateChangeHandler pm origCfg z n s).1.readyListenerRegistered =
      s.readyListenerRegistered ∧
    (iterateChangeHandler pm origCfg z n s).1.warningTimeoutArmed =
      s.warningTimeoutArmed ∧
    (iterateChangeHandler pm origCfg z n s).1.errorTimeoutArmed =
      s.errorTimeoutArmed ∧
    (iterateChangeHandler pm origCfg z n s).1.warnFireCount =
      s.warnFireCount ∧
    (iterateChangeHandler pm origCfg z n s).1.errorFireCount =
      s.errorFireCount := by
  induction n generalizing s with
  | zero => exact ⟨rfl, rfl, rfl, rfl, rfl, rfl⟩
  | succ n ih =>
    obtain ⟨h1, h2, h3, h4, h5, h6⟩ := consentChangeHandler_flags pm origCfg z s
    obtain ⟨g1, g2, g3, g4, g5, g6⟩ :=
      ih (consentChangeHandler pm origCfg z s).1
    exact ⟨g1.trans h1, g2.trans h2, g3.trans h3, g4.trans h4,
      g5.trans h5, g6.trans h6⟩

/-- Once both timers are disarmed, no delivery re-arms them and neither
timer body ever executes. -/
theorem step_preserves_disarmed (pm : PurposeMapping)
    (origCfg : OriginalSentryConfig) (s : IntegrationState)
    (z : Option ZarazConsentApi) (ev : SysEvent)
    (hw : s.warningTimeoutArmed = false)
    (he : s.errorTimeoutArmed = false) :
    (step pm origCfg s z ev).1.warningTimeoutArmed = false ∧
    (step pm origCfg s z ev).1.errorTimeoutArmed = false ∧
    (step pm origCfg s z ev).1.warnFireCount = s.warnFireCount ∧
    (step pm origCfg s z ev).1.errorFireCount = s.errorFireCount := by
  cases ev with
  | capture e h =>
    obtain ⟨-, -, -, h4, h5, h6, h7⟩ := processEvent_flags s e h
    exact ⟨h4.trans hw, h5.trans he, h6, h7⟩
  | zarazReady =>
    by_cases hr : s.readyListenerRegistered
    · by_cases hz : zarazApiReady z
      · obtain ⟨-, -, -, -, h5, h6⟩ := checkConsent_flags pm origCfg z s
        simp [step, hr, handleZarazLoaded, hz,
          clearWarningAndErrorTimeouts, h5, h6]
      · simp [step, hr, handleZarazLoaded, hz, hw, he]
    · simp [step, hr, hw, he]
  | consentChanged =>
    obtain ⟨-, -, g3, g4, g5, g6⟩ :=
      iterateChangeHandler_flags pm origCfg z s.changeListenerCount s
    exact ⟨g3.trans hw, g4.trans he, g5, g6⟩
  | warnFire => simp [step, hw, he]
  | fallbackFire => simp [step, hw, he]

/-- Whole-trace version of the previous lemma. -/
theorem run_preserves_disarmed (pm : PurposeMapping)
    (origCfg : OriginalSentryConfig)
    (trace : List (Option ZarazConsentApi × SysEvent))
    (s : IntegrationState) (hw : s.warningTimeoutArmed = false)
    (he : s.errorTimeoutArmed = false) :
    (run pm origCfg s trace).1.warningTimeoutArmed = false ∧
    (run pm origCfg s trace).1.errorTimeoutArmed = false ∧
    (run pm origCfg s trace).1.warnFireCount = s.warnFireCount ∧
    (run pm origCfg s trace).1.errorFireCount = s.errorFireCount := by
  induction trace generalizing s with
  | nil => exact ⟨hw, he, rfl, rfl⟩
  | cons p rest ih =>
    obtain ⟨z, ev⟩ := p
    obtain ⟨h1, h2, h3, h4⟩ := step_preserves_disarmed pm origCfg s z ev hw he
    obtain ⟨g1, g2, g3, g4⟩ := ih (step pm origCfg s z ev).1 h1 h2
    exact ⟨g1, g2, g3.trans h3, g4.trans h4⟩

/-- C9: the moment the gating state transitions via the normal resolution
path (`checkConsent`), both delayed callbacks are canceled, and along any
subsequent delivery sequence neither the warning body nor the fallback
body ever executes (their execution counters never move). -/
theorem timers_never_fire_after_resolution (pm : PurposeMapping)
    (origCfg : OriginalSentryConfig) (z : Option ZarazConsentApi)
    (s : IntegrationState)
    (trace : List (Option ZarazConsentApi × SysEvent)) :
    (checkConsent pm origCfg z s).1.warningTimeoutArmed = false ∧
    (checkConsent pm origCfg z s).1.errorTimeoutArmed = false ∧
    (run pm origCfg (checkConsent pm origCfg z s).1 trace).1.warnFireCount =
      (checkConsent pm origCfg z s).1.warnFireCount ∧
    (run pm origCfg (checkConsent pm origCfg z s).1 trace).1.errorFireCount =
      (checkConsent pm origCfg z s).1.errorFireCount := by
  obtain ⟨-, h2, h3, -, -, -⟩ := checkConsent_flags pm origCfg z s
  obtain ⟨-, -, g3, g4⟩ :=
    run_preserves_disarmed pm origCfg trace (checkConsent pm origCfg z s).1 h2 h3
  exact ⟨h2, h3, g3, g4⟩

/-- A state reached by a normal-path first resolution: readiness is
determined, the one-shot readiness listener has been removed (or was never
registered, in the synchronous case), and both timers are canceled. -/
def normallyResolved (s : IntegrationState) : Prop :=
  s.isConsentReady = true ∧ s.readyListenerRegistered = false ∧
  s.warningTimeoutArmed = false ∧ s.errorTimeoutArmed = false

/-- C4 (amended): the state machine never re-enters NOT_READY, and after a
normal-path resolution every delivery other than a consent-change
notification leaves the state entirely unchanged — so only
READY_GRANTED and READY_DENIED are visited afterward, with transitions
driven solely by change notifications. (After a fallback-forced
READY_DENIED, by contrast, the readiness listener is still registered and
a late readiness notification re-runs the resolution protocol: see the
counterexample.) -/
theorem gating_after_resolution (pm : PurposeMapping)
    (origCfg : OriginalSentryConfig) (s : IntegrationState)
    (z : Option ZarazConsentApi) (ev : SysEvent) :
    (s.isConsentReady = true →
      (step pm origCfg s z ev).1.isConsentReady = true) ∧
    (normallyResolved s →
      normallyResolved (step pm origCfg s z ev).1 ∧
      (ev ≠ SysEvent.consentChanged → (step pm origCfg s z ev).1 = s)) := by
  constructor
  · intro hr
    cases ev with
    | capture e h => exact (processEvent_flags s e h).1.trans hr
    | zarazReady =>
      by_cases hl : s.readyListenerRegistered
      · by_cases hz : zarazApiReady z
        · have h1 := (checkConsent_flags pm origCfg z s).1
          simp [step, hl, handleZarazLoaded, hz,
            clearWarningAndErrorTimeouts, h1]
        · simp [step, hl, handleZarazLoaded, hz, hr]
      · simp [step, hl, hr]
    | consentChanged =>
      exact ((iterateChangeHandler_flags pm origCfg z
        s.changeListenerCount s).1).trans hr
    | warnFire =>
      by_cases hw : s.warningTimeoutArmed <;> simp [step, hw, hr]
    | fallbackFire =>
      by_cases he : s.errorTimeoutArmed <;> simp [step, he, hr]
  · rintro ⟨hr, hl, hw, he⟩
    cases ev with
    | capture e h =>
      have hstate : (step pm origCfg s z (.capture e h)).1 = s := by
        cases hc : s.hasConsent <;> simp [step, processEvent, hr, hc]
      rw [hstate]
      exact ⟨⟨hr, hl, hw, he⟩, fun _ => rfl⟩
    | zarazReady =>
      have hstate : (step pm origCfg s z .zarazReady).1 = s := by
        simp [step, hl]
      rw [hstate]
      exact ⟨⟨hr, hl, hw, he⟩, fun _ => rfl⟩
    | consentChanged =>
      obtain ⟨f1, f2, f3, f4, -, -⟩ :=
        iterateChangeHandler_flags pm origCfg z s.changeListenerCount s
      exact ⟨⟨f1.trans hr, f2.trans hl, f3.trans hw, f4.trans he⟩,
        fun hne => absurd rfl hne⟩
    | warnFire =>
      have hstate : (step pm origCfg s z .warnFire).1 = s := by
        simp [step, hw]
      rw [hstate]
      exact ⟨⟨hr, hl, hw, he⟩, fun _ => rfl⟩
    | fallbackFire =>
      have hstate : (step pm origCfg s z .fallbackFire).1 = s := by
        simp [step, he]
      rw [hstate]
      exact ⟨⟨hr, hl, hw, he⟩, fun _ => rfl⟩

/-- Witness for the amended C4: a warning-expiry delivery against a
normally resolved state keeps readiness and changes nothing. -/
theorem gating_after_resolution_witness :
    (step pmFixedFunctional origCfgSample resolvedState none
        .warnFire).1.isConsentReady = true ∧
    normallyResolved (step pmFixedFunctional origCfgSample resolvedState none
        .warnFire).1 ∧
    (step pmFixedFunctional origCfgSample resolvedState none .warnFire).1 =
      resolvedState := by
  have h := gating_after_resolution pmFixedFunctional origCfgSample
    resolvedState none .warnFire
  have h2 := h.2 ⟨rfl, rfl, rfl, rfl⟩
  exact ⟨h.1 rfl, h2.1, h2.2 (by decide)⟩

/-- Consent source reporting ready and granting every purpose id. -/
def apiAllGranted : ZarazConsentApi :=
  { APIReady := true, get := fun _ => some true }

/-- Mapping whose functional purpose needs the external id "f". -/
def pmNeedsF : PurposeMapping :=
  { functional := .ids ["f"], analytics := .fixed false,
    marketing := .fixed false, preferences := .fixed false }

/-- Setup with the consent source absent: listener registered, timers
armed, still NOT_READY. -/
def lateReadyStateA : IntegrationState :=
  (initConsentMonitoring pmNeedsF origCfgSample none initialState).1

/-- The fallback timeout then fires, forcing READY_DENIED. -/
def lateReadyStateB : IntegrationState :=
  (step pmNeedsF origCfgSample lateReadyStateA none .fallbackFire).1

/-- The consent source then becomes ready and grants "f"; the still
registered readiness listener runs the full resolution protocol again. -/
def lateReadyStateC : IntegrationState :=
  (step pmNeedsF origCfgSample lateReadyStateB (some apiAllGranted)
    .zarazReady).1

/-- Counterexample to C4 as stated: after the fallback timeout has already
forced READY_DENIED (with no change listener registered), a late
readiness notification runs a second resolution — registering the change
listener, applying a reconciliation, and moving the gating state to
READY_GRANTED although no change notification was delivered. -/
theorem fallback_then_ready_reresolves :
    gatingStateOf lateReadyStateB = .readyDenied ∧
    lateReadyStateB.changeListenerCount = 0 ∧
    lateReadyStateB.readyListenerRegistered = true ∧
    gatingStateOf lateReadyStateC = .readyGranted ∧
    lateReadyStateC.changeListenerCount = 1 ∧
    lateReadyStateC.applyConfigCount = lateReadyStateB.applyConfigCount + 1 := by
  decide
